import Mathlib

/-
Verification development for the resilient remote-tool-access layer in
src/react_agent/tools.py: health tracking, circuit breaking, retrying
connection logic, the time-boxed tool registry cache, the invocation
guard, and the tool facade operations built on top of them.

Timestamps are modelled as natural-number time-units. Note that the two
comparisons the source performs on time differences, namely
now - ts < CACHE_DURATION and CIRCUIT_BREAKER_TIMEOUT < now - lf, agree
with real arithmetic under truncated natural subtraction. Python dict
state is modelled as association lists keyed by strings, and the module
level mutable globals are gathered into an explicit SysState record that
every operation threads through.
-/

set_option maxRecDepth 10000

/-- Cache lifetime in time-units (CACHE_DURATION = 300). -/
def CACHE_DURATION : Nat := 300

/-- Maximum connection attempts per server (MAX_RETRIES = 3). -/
def MAX_RETRIES : Nat := 3

/-- Base backoff delay in time-units (BASE_RETRY_DELAY = 1.0). -/
def BASE_RETRY_DELAY : ℚ := 1

/-- Backoff delay cap in time-units (MAX_RETRY_DELAY = 8.0). -/
def MAX_RETRY_DELAY : ℚ := 8

/-- Per-invocation execution timeout (TOOL_EXECUTION_TIMEOUT = 30). -/
def TOOL_EXECUTION_TIMEOUT : Nat := 30

/-- Per-attempt connection timeout (MCP_CONNECTION_TIMEOUT = 20). -/
def MCP_CONNECTION_TIMEOUT : Nat := 20

/-- Consecutive failures needed to open a breaker (CIRCUIT_BREAKER_THRESHOLD = 3). -/
def CIRCUIT_BREAKER_THRESHOLD : Nat := 3

/-- Breaker cool-down in time-units (CIRCUIT_BREAKER_TIMEOUT = 300). -/
def CIRCUIT_BREAKER_TIMEOUT : Nat := 300

/-- Lookup in an association list, modelling Python dict indexing and membership. -/
def lookupKey {α : Type} : List (String × α) → String → Option α
  | [], _ => none
  | (k, v) :: rest, nm => if nm = k then some v else lookupKey rest nm

/-- Insert or overwrite a key, modelling Python dict assignment. -/
def setEntry {α : Type} : List (String × α) → String → α → List (String × α)
  | [], nm, v => [(nm, v)]
  | (k, w) :: rest, nm, v =>
    if nm = k then (nm, v) :: rest else (k, w) :: setEntry rest nm v

/-- Remove a key, modelling Python dict deletion. -/
def delEntry {α : Type} : List (String × α) → String → List (String × α)
  | [], _ => []
  | (k, w) :: rest, nm =>
    if nm = k then delEntry rest nm else (k, w) :: delEntry rest nm

/-- Per-provider connection health record (_connection_health values). -/
structure ProviderHealth where
  success_count : Nat
  failure_count : Nat
  last_success : Option Nat
  last_failure : Option Nat
deriving DecidableEq

/-- Fresh health record as created by _update_connection_health and the pre-warm loop. -/
def ProviderHealth.init : ProviderHealth :=
  ⟨0, 0, none, none⟩

/-- Per-provider circuit breaker record (_circuit_breaker values). -/
structure BreakerState where
  failure_count : Nat
  last_failure : Option Nat
  is_open : Bool
deriving DecidableEq

/-- Fresh breaker record as created by _update_circuit_breaker. -/
def BreakerState.init : BreakerState :=
  ⟨0, none, false⟩

/-- The module-level mutable globals of tools.py gathered into one record:
the tool cache, its fetch timestamp, the health table and the breaker table. -/
structure SysState (τ : Type) where
  cache : Option (List (String × τ))
  cacheTs : Option Nat
  health : List (String × ProviderHealth)
  breaker : List (String × BreakerState)
deriving DecidableEq

/-- Embeds _update_circuit_breaker: create the record if absent, increment the
streak, stamp the failure time, and open the breaker at the threshold. -/
def _update_circuit_breaker (now : Nat) (br : List (String × BreakerState))
    (nm : String) : List (String × BreakerState) :=
  let b0 := (lookupKey br nm).getD BreakerState.init
  let b1 : BreakerState := ⟨b0.failure_count + 1, some now, b0.is_open⟩
  let b2 := if CIRCUIT_BREAKER_THRESHOLD ≤ b1.failure_count then
    ⟨b1.failure_count, b1.last_failure, true⟩ else b1
  setEntry br nm b2

/-- Embeds _update_connection_health: bump the matching counter and timestamp;
on success delete the breaker record, on failure update the breaker. -/
def _update_connection_health {τ : Type} (now : Nat) (s : SysState τ)
    (nm : String) (success : Bool) : SysState τ :=
  let h0 := (lookupKey s.health nm).getD ProviderHealth.init
  if success then
    { s with
      health := setEntry s.health nm
        ⟨h0.success_count + 1, h0.failure_count, some now, h0.last_failure⟩,
      breaker := delEntry s.breaker nm }
  else
    { s with
      health := setEntry s.health nm
        ⟨h0.success_count, h0.failure_count + 1, h0.last_success, some now⟩,
      breaker := _update_circuit_breaker now s.breaker nm }

/-- Python truthiness of the stored last_failure timestamp: None and 0 are falsy. -/
def lastFailureTruthy (b : BreakerState) : Bool :=
  match b.last_failure with
  | some lf => lf != 0
  | none => false

/-- Embeds _is_circuit_breaker_open: a query that may lazily reset an open
breaker whose cool-down has elapsed; returns the answer and the new table. -/
def _is_circuit_breaker_open (now : Nat) (br : List (String × BreakerState))
    (nm : String) : Bool × List (String × BreakerState) :=
  match lookupKey br nm with
  | none => (false, br)
  | some b =>
    if b.is_open then
      if lastFailureTruthy b
          && decide (CIRCUIT_BREAKER_TIMEOUT < now - (b.last_failure.getD 0)) then
        (false, setEntry br nm ⟨0, b.last_failure, false⟩)
      else (true, br)
    else (false, br)

/-- Structured result value, modelling the dicts the facade returns: the
status and error fields, whether a debug_info snapshot is attached, and an
extra field standing in for any domain payload a provider may return. -/
structure TResult where
  status : Option String
  error : Option String
  hasDebugInfo : Bool
  data : Option String
deriving DecidableEq

/-- Behaviour of one awaited underlying call for a fixed argument tuple:
it returns after some duration, raises after some duration, or hangs. -/
inductive CallBehavior where
  | returnsAfter (duration : Nat) (value : TResult)
  | raisesAfter (duration : Nat) (msg : String)
  | hangs
deriving DecidableEq

/-- Python exception escaping a facade operation. -/
inductive PyExc where
  | keyError (key : String)
  | otherExc (msg : String)
deriving DecidableEq

/-- Observable outcome of running a facade operation: a returned value, an
uncaught exception, or divergence (an await that never completes). -/
inductive PyResult (α : Type) where
  | ok (v : α)
  | exc (e : PyExc)
  | diverges
deriving DecidableEq

/-- Message text of an exception as seen by an except handler. -/
def excMessage : PyExc → String
  | .keyError k => k
  | .otherExc m => m

/-- Outcome of asyncio.wait_for around one call. -/
inductive WaitOutcome where
  | value (v : TResult)
  | timedOutW
  | raised (msg : String)
deriving DecidableEq

/-- Embeds asyncio.wait_for with a timeout: a call that does not finish
within the bound is cancelled and reported as a timeout. -/
def wait_for (c : CallBehavior) (t : Nat) : WaitOutcome :=
  match c with
  | .returnsAfter d v => if d ≤ t then .value v else .timedOutW
  | .raisesAfter d m => if d ≤ t then .raised m else .timedOutW
  | .hangs => .timedOutW

/-- Whether the underlying call completes (returns or raises) within t. -/
def CallBehavior.finishesWithin (c : CallBehavior) (t : Nat) : Bool :=
  match c with
  | .returnsAfter d _ => d ≤ t
  | .raisesAfter d _ => d ≤ t
  | .hangs => false

/-- Structured value produced by the guard on a timeout. -/
def timeoutResult : TResult :=
  ⟨some ("timeout"),
   some (("Tool execution timed out after ") ++ toString TOOL_EXECUTION_TIMEOUT ++ ("s")),
   false, none⟩

/-- Structured value produced by the guard on any other fault. -/
def errorResult (msg : String) : TResult :=
  ⟨some ("error"), some (("Tool execution failed: ") ++ msg), false, none⟩

/-- Embeds _execute_tool_with_timeout: one call under the execution timeout,
with the except handlers turning a timeout or any other fault into a
structured value instead of letting it escape. -/
def _execute_tool_with_timeout (c : CallBehavior) : PyResult TResult :=
  match wait_for c TOOL_EXECUTION_TIMEOUT with
  | .value v => .ok v
  | .timedOutW => .ok timeoutResult
  | .raised m => .ok (errorResult m)

/-- Outcome of one connection attempt to one server in the environment the
connector runs against. -/
inductive AttemptOutcome (τ : Type) where
  | success (tools : List (String × τ))
  | fault (msg : String)
deriving DecidableEq

/-- Backoff delay slept before the attempt with this zero-based index. -/
def retryDelay (attempt : Nat) : ℚ :=
  min (BASE_RETRY_DELAY * 2 ^ (attempt - 1)) MAX_RETRY_DELAY

/-- Merge freshly enumerated tools into the accumulator keyed by name;
later entries overwrite earlier ones. -/
def mergeTools {τ : Type} (d : List (String × τ)) : List (String × τ) → List (String × τ)
  | [] => d
  | (n, t) :: rest => mergeTools (setEntry d n t) rest

/-- Result of one _connect_server_with_retry call, instrumented with the
number of attempts actually made and the delays slept before attempts. -/
structure ConnectResult (τ : Type) where
  ok : Bool
  toolsDict : List (String × τ)
  state : SysState τ
  delays : List ℚ
  attemptsMade : Nat
deriving DecidableEq

/-- Embeds the retry loop of _connect_server_with_retry over the remaining
zero-based attempt indices: sleep when the index is positive, try the
attempt, record a health failure only on the final failed attempt. -/
def connectAttempts {τ : Type} (env : Nat → AttemptOutcome τ) (now : Nat) (nm : String) :
    List Nat → List (String × τ) → SysState τ → ConnectResult τ
  | [], td, s => ⟨false, td, s, [], 0⟩
  | attempt :: rest, td, s =>
    let ds : List ℚ := if 0 < attempt then [retryDelay attempt] else []
    match env attempt with
    | .success tools =>
      ⟨true, mergeTools td tools, _update_connection_health now s nm true, ds, 1⟩
    | .fault _ =>
      let s1 := if rest.isEmpty then _update_connection_health now s nm false else s
      let r := connectAttempts env now nm rest td s1
      ⟨r.ok, r.toolsDict, r.state, ds ++ r.delays, r.attemptsMade + 1⟩

/-- Embeds _connect_server_with_retry: skip entirely when the breaker is
open, otherwise run up to MAX_RETRIES attempts. -/
def _connect_server_with_retry {τ : Type} (env : Nat → AttemptOutcome τ) (now : Nat)
    (nm : String) (td : List (String × τ)) (s : SysState τ) : ConnectResult τ :=
  let pr := _is_circuit_breaker_open now s.breaker nm
  let s0 := { s with breaker := pr.2 }
  if pr.1 then ⟨false, td, s0, [], 0⟩
  else connectAttempts env now nm (List.range MAX_RETRIES) td s0

/-- The configured provider names, in refresh order. -/
def servers : List String := ["twitter", "remote_server"]

/-- The fixed required tool set the refresh filters to (10 names). -/
def required_tools : List String :=
  ["post_tweet", "delete_tweet", "like_tweet", "retweet",
   "advanced_search_twitter", "get_trends", "get_tweets_by_IDs",
   "get_tweet_replies", "get_tweet_quotations", "get_tweet_thread_context"]

/-- Embeds the recent-failure check of the cache fast path: some provider
shows last_failure strictly greater than last_success, with missing
timestamps read as 0 as Python or-coercion does. -/
def recentFailures (health : List (String × ProviderHealth)) : Bool :=
  health.any (fun p => (p.2.last_success.getD 0) < (p.2.last_failure.getD 0))

/-- Embeds the pre-warm loop: insert a fresh health record for each
configured server not yet tracked. -/
def prewarmHealth (h : List (String × ProviderHealth)) :
    List String → List (String × ProviderHealth)
  | [] => h
  | nm :: rest =>
    prewarmHealth
      (if (lookupKey h nm).isSome then h else setEntry h nm ProviderHealth.init) rest

/-- Embeds the per-server loop of _get_all_mcp_tools_impl: connect each
server with retry and record an extra health failure when the connect
reports failure; accumulates tools and counts connection attempts. -/
def refreshServers {τ : Type} (env : String → Nat → AttemptOutcome τ) (now : Nat) :
    List String → List (String × τ) → SysState τ → Nat →
    List (String × τ) × SysState τ × Nat
  | [], td, s, n => (td, s, n)
  | nm :: rest, td, s, n =>
    let c := _connect_server_with_retry (env nm) now nm td s
    let s1 := if c.ok then c.state else _update_connection_health now c.state nm false
    refreshServers env now rest c.toolsDict s1 (n + c.attemptsMade)

/-- The cache fast path condition of _get_all_mcp_tools_impl: a cache and
timestamp exist, the cache is younger than CACHE_DURATION, and no provider
shows a recent failure; yields the served cache when it applies. -/
def fastPathCache {τ : Type} (now : Nat) (s : SysState τ) : Option (List (String × τ)) :=
  match s.cache, s.cacheTs with
  | some c, some ts =>
    if now - ts < CACHE_DURATION then
      if recentFailures s.health then none else some c
    else none
  | _, _ => none

/-- Result of one _get_all_mcp_tools_impl call, instrumented with the number
of connection attempts made, whether the fast path served the cache, and
the freshly filtered tool set when a refresh actually ran. -/
structure RefreshResult (τ : Type) where
  result : List (String × τ)
  state : SysState τ
  connectCalls : Nat
  tookFastPath : Bool
  fresh : Option (List (String × τ))
deriving DecidableEq

/-- Embeds _get_all_mcp_tools_impl: serve a fresh healthy cache directly,
otherwise refresh every server, filter to required_tools, store the result
only when it is non-empty or no cache exists, and return the filtered set. -/
def _get_all_mcp_tools_impl {τ : Type} (env : String → Nat → AttemptOutcome τ)
    (now : Nat) (s : SysState τ) : RefreshResult τ :=
  match fastPathCache now s with
  | some c => ⟨c, s, 0, true, none⟩
  | none =>
    let s0 := { s with health := prewarmHealth s.health servers }
    let rs := refreshServers env now servers [] s0 0
    let filtered := rs.1.filter (fun p => required_tools.contains p.1)
    let s2 :=
      if !filtered.isEmpty || rs.2.1.cache.isNone then
        { rs.2.1 with cache := some filtered, cacheTs := some now }
      else rs.2.1
    ⟨filtered, s2, rs.2.2, false, some filtered⟩

/-- Embeds _get_all_mcp_tools: the impl under a global timeout; when the
timeout fires the last known cache (or the empty mapping) is returned and
the coarse state is left as it stands. -/
def _get_all_mcp_tools {τ : Type} (env : String → Nat → AttemptOutcome τ)
    (now : Nat) (timedOut : Bool) (s : SysState τ) : RefreshResult τ :=
  if timedOut then ⟨s.cache.getD [], s, 0, false, none⟩
  else _get_all_mcp_tools_impl env now s

/-- A registry entry: its behaviour when invoked with the arguments of the
scenario under consideration. The handle itself is provider-defined. -/
structure Tool where
  behavior : CallBehavior
deriving DecidableEq

/-- Connection environment the facade operations run against. -/
def MCPEnv : Type := String → Nat → AttemptOutcome Tool

/-- Result of one facade operation: the value or escaping fault, the state
left behind, and the number of _get_all_mcp_tools fetches performed. -/
structure OpOut where
  result : PyResult TResult
  state : SysState Tool
  fetches : Nat
deriving DecidableEq

/-- One direct await of tool.ainvoke with no surrounding try block: a fault
escapes, a hang diverges. -/
def invokeDirect (t : Tool) : PyResult TResult :=
  match t.behavior with
  | .returnsAfter _ v => .ok v
  | .raisesAfter _ m => .exc (.otherExc m)
  | .hangs => .diverges

/-- One direct await of tool.ainvoke inside a try block whose except handler
turns the exception message into a structured failed value. -/
def invokeCaught (t : Tool) (pre : String) : PyResult TResult :=
  match invokeDirect t with
  | .ok v => .ok v
  | .exc e => .ok ⟨some ("failed"), some (pre ++ excMessage e), false, none⟩
  | .diverges => .diverges

/-- The final fallback value of post_tweet after both attempts fail. -/
def postUnavailableResult : TResult :=
  ⟨some ("failed"), some ("Twitter posting service unavailable after retries"), true, none⟩

/-- The second loop iteration of post_tweet, entered with the cache already
cleared by the first iteration. -/
def postSecondAttempt (env : MCPEnv) (now : Nat) (timedOut : Bool)
    (s1 : SysState Tool) : OpOut :=
  let r1 := _get_all_mcp_tools env now timedOut s1
  match lookupKey r1.result ("post_tweet") with
  | some t =>
    match _execute_tool_with_timeout t.behavior with
    | .ok v => ⟨.ok v, r1.state, 2⟩
    | .exc e =>
      ⟨.ok ⟨some ("failed"), some (("Twitter posting failed: ") ++ excMessage e), false, none⟩,
       r1.state, 2⟩
    | .diverges => ⟨.diverges, r1.state, 2⟩
  | none => ⟨.ok postUnavailableResult, r1.state, 2⟩

/-- Embeds post_tweet: fetch tools; when the tool is present run it under
the guard and return; when it is absent (or the guarded call itself were to
raise) clear the cache and run one second iteration. -/
def post_tweet (env : MCPEnv) (now : Nat) (timedOut : Bool) (s : SysState Tool) : OpOut :=
  let r0 := _get_all_mcp_tools env now timedOut s
  match lookupKey r0.result ("post_tweet") with
  | some t =>
    match _execute_tool_with_timeout t.behavior with
    | .ok v => ⟨.ok v, r0.state, 1⟩
    | .exc _ => postSecondAttempt env now timedOut { r0.state with cache := none }
    | .diverges => ⟨.diverges, r0.state, 1⟩
  | none => postSecondAttempt env now timedOut { r0.state with cache := none }

/-- Embeds delete_tweet: fetch once, fail fast with a structured result and
debug snapshot when the tool is absent, otherwise one caught direct call. -/
def delete_tweet (env : MCPEnv) (now : Nat) (timedOut : Bool) (s : SysState Tool) : OpOut :=
  let r := _get_all_mcp_tools env now timedOut s
  match lookupKey r.result ("delete_tweet") with
  | none =>
    ⟨.ok ⟨some ("failed"), some ("Twitter delete service unavailable"), true, none⟩,
     r.state, 1⟩
  | some t => ⟨invokeCaught t ("Tweet deletion failed: "), r.state, 1⟩

/-- Embeds like_tweet: same shape as delete_tweet. -/
def like_tweet (env : MCPEnv) (now : Nat) (timedOut : Bool) (s : SysState Tool) : OpOut :=
  let r := _get_all_mcp_tools env now timedOut s
  match lookupKey r.result ("like_tweet") with
  | none =>
    ⟨.ok ⟨some ("failed"), some ("Twitter like service unavailable"), true, none⟩,
     r.state, 1⟩
  | some t => ⟨invokeCaught t ("Tweet liking failed: "), r.state, 1⟩

/-- Embeds retweet: same shape as delete_tweet. -/
def retweet (env : MCPEnv) (now : Nat) (timedOut : Bool) (s : SysState Tool) : OpOut :=
  let r := _get_all_mcp_tools env now timedOut s
  match lookupKey r.result ("retweet") with
  | none =>
    ⟨.ok ⟨some ("failed"), some ("Twitter retweet service unavailable"), true, none⟩,
     r.state, 1⟩
  | some t => ⟨invokeCaught t ("Retweeting failed: "), r.state, 1⟩

/-- Embeds advanced_search_twitter: fail fast with a structured result when
absent, otherwise run the call under the invocation guard. -/
def advanced_search_twitter (env : MCPEnv) (now : Nat) (timedOut : Bool)
    (s : SysState Tool) : OpOut :=
  let r := _get_all_mcp_tools env now timedOut s
  match lookupKey r.result ("advanced_search_twitter") with
  | none =>
    ⟨.ok ⟨some ("failed"), some ("Twitter search service unavailable"), true, none⟩,
     r.state, 1⟩
  | some t =>
    match _execute_tool_with_timeout t.behavior with
    | .ok v => ⟨.ok v, r.state, 1⟩
    | .exc e =>
      ⟨.ok ⟨some ("failed"), some (("Twitter search failed: ") ++ excMessage e), false, none⟩,
       r.state, 1⟩
    | .diverges => ⟨.diverges, r.state, 1⟩

/-- Embeds get_trends: an unchecked dict indexing of the registry followed
by a direct await, with no surrounding try block. -/
def get_trends (env : MCPEnv) (now : Nat) (timedOut : Bool) (s : SysState Tool) : OpOut :=
  let r := _get_all_mcp_tools env now timedOut s
  match lookupKey r.result ("get_trends") with
  | none => ⟨.exc (.keyError ("get_trends")), r.state, 1⟩
  | some t => ⟨invokeDirect t, r.state, 1⟩

/-- Embeds get_tweets_by_IDs: same unchecked shape as get_trends. -/
def get_tweets_by_IDs (env : MCPEnv) (now : Nat) (timedOut : Bool)
    (s : SysState Tool) : OpOut :=
  let r := _get_all_mcp_tools env now timedOut s
  match lookupKey r.result ("get_tweets_by_IDs") with
  | none => ⟨.exc (.keyError ("get_tweets_by_IDs")), r.state, 1⟩
  | some t => ⟨invokeDirect t, r.state, 1⟩

/-- Embeds get_tweet_replies: same unchecked shape as get_trends. -/
def get_tweet_replies (env : MCPEnv) (now : Nat) (timedOut : Bool)
    (s : SysState Tool) : OpOut :=
  let r := _get_all_mcp_tools env now timedOut s
  match lookupKey r.result ("get_tweet_replies") with
  | none => ⟨.exc (.keyError ("get_tweet_replies")), r.state, 1⟩
  | some t => ⟨invokeDirect t, r.state, 1⟩

/-- Embeds get_tweet_quotations: same unchecked shape as get_trends. -/
def get_tweet_quotations (env : MCPEnv) (now : Nat) (timedOut : Bool)
    (s : SysState Tool) : OpOut :=
  let r := _get_all_mcp_tools env now timedOut s
  match lookupKey r.result ("get_tweet_quotations") with
  | none => ⟨.exc (.keyError ("get_tweet_quotations")), r.state, 1⟩
  | some t => ⟨invokeDirect t, r.state, 1⟩

/-- Embeds get_tweet_thread_context: an explicit absence check returning a
structured failure without a debug snapshot, then a caught direct call. -/
def get_tweet_thread_context (env : MCPEnv) (now : Nat) (timedOut : Bool)
    (s : SysState Tool) : OpOut :=
  let r := _get_all_mcp_tools env now timedOut s
  match lookupKey r.result ("get_tweet_thread_context") with
  | none =>
    ⟨.ok ⟨some ("failed"), some ("Twitter thread context service unavailable"), false, none⟩,
     r.state, 1⟩
  | some t => ⟨invokeCaught t ("Getting tweet thread context failed: "), r.state, 1⟩

/-- Whether a tool name mentions the word tweet, as the status check
filters with the in operator. -/
def nameMentionsTweet (n : String) : Bool := 1 < (n.splitOn ("tweet")).length

/-- Result of check_twitter_connection_status, keeping the fetch it made. -/
structure StatusOut where
  fetch : RefreshResult Tool
  statusLabel : String
  totalTools : Nat
deriving DecidableEq

/-- Embeds check_twitter_connection_status: clear the cache, fetch tools,
and report healthy or degraded from the tweet-named tools found. -/
def check_twitter_connection_status (env : MCPEnv) (now : Nat) (timedOut : Bool)
    (s : SysState Tool) : StatusOut :=
  let s1 := { s with cache := none }
  let r := _get_all_mcp_tools env now timedOut s1
  let twitterTools := (r.result.map (fun p => p.1)).filter nameMentionsTweet
  ⟨r, if twitterTools.isEmpty then ("degraded") else ("healthy"), r.result.length⟩

/-- Environment in which every connection attempt to every server faults. -/
def envFail : MCPEnv := fun _ _ => .fault ("connection refused")

/-- A sample registry entry. -/
def toolHang : Tool := ⟨.hangs⟩

/-- A stale non-empty cache about to be refreshed by unreachable servers. -/
def sStale : SysState Tool := ⟨some [(("A"), toolHang)], some 0, [], []⟩

/-- A young cache with a healthy provider record. -/
def sFresh : SysState Tool :=
  ⟨some [(("post_tweet"), toolHang)], some 5, [(("twitter"), ⟨1, 0, some 5, none⟩)], []⟩

/-- State with an open breaker for the twitter provider, within cool-down
at time 150, and no cache so that a refresh must run. -/
def sOpenB : SysState Tool :=
  ⟨none, none, [(("twitter"), ⟨0, 3, none, some 100⟩)], [(("twitter"), ⟨3, some 100, true⟩)]⟩

/-- A breaker table holding one open twitter entry with last failure 100. -/
def brOpen : List (String × BreakerState) := [(("twitter"), ⟨3, some 100, true⟩)]

/-- Breaker table produced by consecutive failures at times 1, 1, 1 (the
third of which opens the breaker) followed by a fourth failure at 200. -/
def brSeq : List (String × BreakerState) :=
  _update_circuit_breaker 200 (_update_circuit_breaker 1 (_update_circuit_breaker 1
    (_update_circuit_breaker 1 [] ("twitter")) ("twitter")) ("twitter")) ("twitter")

/-- A fresh cache holding an empty registry: every tool is absent while the
fast path still serves the cache. -/
def sEmptyReg : SysState Tool := ⟨some [], some 0, [], []⟩

/-- A registry entry whose invocation raises promptly. -/
def toolBoom : Tool := ⟨.raisesAfter 1 ("boom")⟩

/-- A fresh cache holding only post_tweet, backed by that entry. -/
def sPostReg : SysState Tool := ⟨some [(("post_tweet"), toolBoom)], some 0, [], []⟩

theorem lookupKey_setEntry_self {α : Type} (m : List (String × α)) (nm : String) (v : α) :
    lookupKey (setEntry m nm v) nm = some v := by
  induction m with
  | nil => simp [lookupKey, setEntry]
  | cons p rest ih =>
    by_cases h : nm = p.1
    · simp [lookupKey, setEntry, h]
    · simp [lookupKey, setEntry, h, ih]

theorem lookupKey_delEntry_self {α : Type} (m : List (String × α)) (nm : String) :
    lookupKey (delEntry m nm) nm = none := by
  induction m with
  | nil => simp [lookupKey, delEntry]
  | cons p rest ih =>
    by_cases h : nm = p.1
    · subst h
      simp [delEntry, ih]
    · simp [lookupKey, delEntry, h, ih]

theorem breaker_open_query_keeps_table (now : Nat)
    (br : List (String × BreakerState)) (nm : String)
    (h : (_is_circuit_breaker_open now br nm).1 = true) :
    (_is_circuit_breaker_open now br nm).2 = br := by
  unfold _is_circuit_breaker_open at h ⊢
  match hl : lookupKey br nm with
  | none => simp [hl] at h
  | some b =>
    simp only [hl] at h ⊢
    by_cases hb : b.is_open
    · simp only [hb, if_true] at h ⊢
      by_cases hc : (lastFailureTruthy b
          && decide (CIRCUIT_BREAKER_TIMEOUT < now - (b.last_failure.getD 0))) = true
      · simp [hc] at h
      · simp [hc]
    · simp [hb] at h

theorem update_health_keeps_cache {τ : Type} (now : Nat) (s : SysState τ)
    (nm : String) (b : Bool) :
    (_update_connection_health now s nm b).cache = s.cache ∧
    (_update_connection_health now s nm b).cacheTs = s.cacheTs := by
  cases b <;> simp [_update_connection_health]

theorem connectAttempts_keeps_cache {τ : Type} (env : Nat → AttemptOutcome τ)
    (now : Nat) (nm : String) (l : List Nat) (td : List (String × τ)) (s : SysState τ) :
    (connectAttempts env now nm l td s).state.cache = s.cache ∧
    (connectAttempts env now nm l td s).state.cacheTs = s.cacheTs := by
  induction l generalizing td s with
  | nil => simp [connectAttempts]
  | cons a rest ih =>
    cases henv : env a with
    | success tools =>
      simp [connectAttempts, henv, _update_connection_health]
    | fault m =>
      by_cases hr : rest.isEmpty
      · simp [connectAttempts, henv, hr, ih, _update_connection_health]
      · simp [connectAttempts, henv, hr, ih]

theorem connect_keeps_cache {τ : Type} (env : Nat → AttemptOutcome τ) (now : Nat)
    (nm : String) (td : List (String × τ)) (s : SysState τ) :
    (_connect_server_with_retry env now nm td s).state.cache = s.cache ∧
    (_connect_server_with_retry env now nm td s).state.cacheTs = s.cacheTs := by
  unfold _connect_server_with_retry
  by_cases h : (_is_circuit_breaker_open now s.breaker nm).1
  · simp [h]
  · simp [h, connectAttempts_keeps_cache]

theorem refreshServers_keeps_cache {τ : Type} (env : String → Nat → AttemptOutcome τ)
    (now : Nat) (l : List String) (td : List (String × τ)) (s : SysState τ) (n : Nat) :
    (refreshServers env now l td s n).2.1.cache = s.cache ∧
    (refreshServers env now l td s n).2.1.cacheTs = s.cacheTs := by
  induction l generalizing td s n with
  | nil => simp [refreshServers]
  | cons nm rest ih =>
    simp only [refreshServers]
    obtain ⟨g1, g2⟩ := connect_keeps_cache (env nm) now nm td s
    by_cases hok : (_connect_server_with_retry (env nm) now nm td s).ok
    · simp only [hok, if_true]
      obtain ⟨h1, h2⟩ := ih ((_connect_server_with_retry (env nm) now nm td s).toolsDict)
        ((_connect_server_with_retry (env nm) now nm td s).state)
        (n + (_connect_server_with_retry (env nm) now nm td s).attemptsMade)
      exact ⟨h1.trans g1, h2.trans g2⟩
    · simp only [hok, if_false, Bool.false_eq_true]
      obtain ⟨h1, h2⟩ := ih ((_connect_server_with_retry (env nm) now nm td s).toolsDict)
        (_update_connection_health now (_connect_server_with_retry (env nm) now nm td s).state nm false)
        (n + (_connect_server_with_retry (env nm) now nm td s).attemptsMade)
      obtain ⟨u1, u2⟩ := update_health_keeps_cache now
        ((_connect_server_with_retry (env nm) now nm td s).state) nm false
      exact ⟨(h1.trans u1).trans g1, (h2.trans u2).trans g2⟩

theorem impl_refresh_shape {τ : Type} (env : String → Nat → AttemptOutcome τ)
    (now : Nat) (s : SysState τ) (hfp : fastPathCache now s = none) :
    ∃ st : SysState τ, ∃ filtered : List (String × τ), ∃ k : Nat,
      st.cache = s.cache ∧ st.cacheTs = s.cacheTs ∧
      _get_all_mcp_tools_impl env now s =
        ⟨filtered,
         if (!filtered.isEmpty || st.cache.isNone) = true then
           { st with cache := some filtered, cacheTs := some now } else st,
         k, false, some filtered⟩ := by
  obtain ⟨h1, h2⟩ := refreshServers_keeps_cache env now servers []
    { s with health := prewarmHealth s.health servers } 0
  refine ⟨(refreshServers env now servers [] { s with health := prewarmHealth s.health servers } 0).2.1,
    (refreshServers env now servers [] { s with health := prewarmHealth s.health servers } 0).1.filter
      (fun p => required_tools.contains p.1),
    (refreshServers env now servers [] { s with health := prewarmHealth s.health servers } 0).2.2,
    h1, h2, ?_⟩
  unfold _get_all_mcp_tools_impl
  rw [hfp]

/-- C5: the stored tool registry cache invariant. A non-empty cache is never
overwritten by a refresh whose filtered result is empty; the cache and its
fetch timestamp are replaced exactly when the fresh filtered result is
non-empty (a cache being present), and a fast-path query leaves the whole
state untouched. -/
theorem cache_never_emptied {τ : Type} (env : String → Nat → AttemptOutcome τ)
    (now : Nat) (s : SysState τ) (c : List (String × τ))
    (hc : s.cache = some c) (hne : c ≠ []) :
    ((_get_all_mcp_tools_impl env now s).fresh = some [] →
       (_get_all_mcp_tools_impl env now s).state.cache = some c ∧
       (_get_all_mcp_tools_impl env now s).state.cacheTs = s.cacheTs) ∧
    (∀ d, (_get_all_mcp_tools_impl env now s).fresh = some d → d ≠ [] →
       (_get_all_mcp_tools_impl env now s).state.cache = some d ∧
       (_get_all_mcp_tools_impl env now s).state.cacheTs = some now) ∧
    ((_get_all_mcp_tools_impl env now s).fresh = none →
       (_get_all_mcp_tools_impl env now s).state = s) := by
  cases hfp : fastPathCache now s with
  | some cc =>
    have himpl : _get_all_mcp_tools_impl env now s = ⟨cc, s, 0, true, none⟩ := by
      unfold _get_all_mcp_tools_impl
      rw [hfp]
    rw [himpl]
    refine ⟨?_, ?_, ?_⟩
    · intro h
      simp at h
    · intro d hd
      simp at hd
    · intro h
      rfl
  | none =>
    obtain ⟨st, filtered, k, h1, h2, himpl⟩ := impl_refresh_shape env now s hfp
    rw [himpl]
    refine ⟨?_, ?_, ?_⟩
    · intro hemp
      have hf : filtered = [] := by simpa using hemp
      have hcond : (!filtered.isEmpty || st.cache.isNone) = false := by
        simp [hf, h1, hc]
      simp only [hcond]
      simp [h1, h2, hc]
    · intro d hd hdne
      have hf : filtered = d := by simpa using hd
      have hcond : (!filtered.isEmpty || st.cache.isNone) = true := by
        simp [hf, hdne]
      simp only [hcond]
      simp [hf]
    · intro h
      simp at h

theorem cache_never_emptied_witness :
    sStale.cache = some [(("A"), toolHang)] ∧
    ([(("A"), toolHang)] : List (String × Tool)) ≠ [] ∧
    (_get_all_mcp_tools_impl envFail 1000 sStale).fresh = some [] ∧
    ((_get_all_mcp_tools_impl envFail 1000 sStale).state.cache = some [(("A"), toolHang)] ∧
     (_get_all_mcp_tools_impl envFail 1000 sStale).state.cacheTs = sStale.cacheTs) :=
  ⟨rfl, by decide, by decide,
   (cache_never_emptied envFail 1000 sStale _ rfl (by decide)).1 (by decide)⟩

/-- C6: the fast path. When a cache exists, is younger than CACHE_DURATION,
and no provider shows last_failure greater than last_success, the impl
returns the cached mapping unchanged, leaves the state untouched, and makes
no connection attempt. -/
theorem fresh_healthy_cache_fast_path {τ : Type} (env : String → Nat → AttemptOutcome τ)
    (now : Nat) (s : SysState τ) (c : List (String × τ)) (ts : Nat)
    (hc : s.cache = some c) (hts : s.cacheTs = some ts)
    (hyoung : now - ts < CACHE_DURATION)
    (hhealthy : recentFailures s.health = false) :
    _get_all_mcp_tools_impl env now s = ⟨c, s, 0, true, none⟩ := by
  have hfp : fastPathCache now s = some c := by
    unfold fastPathCache
    rw [hc, hts]
    simp [hyoung, hhealthy]
  unfold _get_all_mcp_tools_impl
  rw [hfp]

theorem fresh_healthy_cache_fast_path_witness :
    sFresh.cache = some [(("post_tweet"), toolHang)] ∧
    sFresh.cacheTs = some 5 ∧
    100 - 5 < CACHE_DURATION ∧
    recentFailures sFresh.health = false ∧
    _get_all_mcp_tools_impl envFail 100 sFresh =
      ⟨[(("post_tweet"), toolHang)], sFresh, 0, true, none⟩ :=
  ⟨rfl, rfl, by decide, by decide,
   fresh_healthy_cache_fast_path envFail 100 sFresh _ 5 rfl rfl (by decide) (by decide)⟩

/-- C9: when a refresh completes without the global timeout and its filtered
result is empty while a non-empty cache exists, the caller receives the
fresh empty mapping, while the stored cache keeps its previous contents. -/
theorem empty_refresh_returns_fresh {τ : Type} (env : String → Nat → AttemptOutcome τ)
    (now : Nat) (s : SysState τ) (c : List (String × τ))
    (hc : s.cache = some c) (hne : c ≠ [])
    (hfresh : (_get_all_mcp_tools env now false s).fresh = some []) :
    (_get_all_mcp_tools env now false s).result = [] ∧
    (_get_all_mcp_tools env now false s).state.cache = some c := by
  have hw : _get_all_mcp_tools env now false s = _get_all_mcp_tools_impl env now s := by
    simp [_get_all_mcp_tools]
  rw [hw] at hfresh ⊢
  cases hfp : fastPathCache now s with
  | some cc =>
    have himpl : _get_all_mcp_tools_impl env now s = ⟨cc, s, 0, true, none⟩ := by
      unfold _get_all_mcp_tools_impl
      rw [hfp]
    rw [himpl] at hfresh
    simp at hfresh
  | none =>
    obtain ⟨st, filtered, k, h1, h2, himpl⟩ := impl_refresh_shape env now s hfp
    rw [himpl] at hfresh ⊢
    have hf : filtered = [] := by simpa using hfresh
    have hcond : (!filtered.isEmpty || st.cache.isNone) = false := by
      simp [hf, h1, hc]
    simp only [hcond]
    simp [hf, h1, hc]

theorem empty_refresh_returns_fresh_witness :
    sStale.cache = some [(("A"), toolHang)] ∧
    ([(("A"), toolHang)] : List (String × Tool)) ≠ [] ∧
    (_get_all_mcp_tools envFail 1000 false sStale).fresh = some [] ∧
    ((_get_all_mcp_tools envFail 1000 false sStale).result = [] ∧
     (_get_all_mcp_tools envFail 1000 false sStale).state.cache = some [(("A"), toolHang)]) :=
  ⟨rfl, by decide, by decide,
   empty_refresh_returns_fresh envFail 1000 sStale _ rfl (by decide) (by decide)⟩

/-- C10: every call to check_twitter_connection_status clears the stored
cache before fetching, so its fetch never takes the cache fast path and a
full provider refresh runs on every status query. -/
theorem status_check_invalidates_cache (env : MCPEnv) (now : Nat) (s : SysState Tool) :
    (check_twitter_connection_status env now false s).fetch =
      _get_all_mcp_tools_impl env now { s with cache := none } ∧
    (check_twitter_connection_status env now false s).fetch.tookFastPath = false ∧
    (check_twitter_connection_status env now false s).fetch.fresh.isSome = true := by
  have hfp : fastPathCache now ({ s with cache := none } : SysState Tool) = none := rfl
  obtain ⟨st, filtered, k, h1, h2, himpl⟩ :=
    impl_refresh_shape env now { s with cache := none } hfp
  have hfetch : (check_twitter_connection_status env now false s).fetch =
      _get_all_mcp_tools_impl env now { s with cache := none } := by
    simp [check_twitter_connection_status, _get_all_mcp_tools]
  refine ⟨hfetch, ?_, ?_⟩ <;> rw [hfetch, himpl] <;> simp

/-- C3 amended: when the breaker is open at the moment a connect is
performed, the connector returns failure immediately, makes no attempt and
records nothing itself (the state is exactly unchanged); however the
refresh loop that sees the failed connect then records one failure for the
provider in the Health Tracker, incrementing failure_count and stamping
last_failure. -/
theorem breaker_open_connect_skip {τ : Type} (env : Nat → AttemptOutcome τ) (now : Nat)
    (nm : String) (td : List (String × τ)) (s : SysState τ)
    (hopen : (_is_circuit_breaker_open now s.breaker nm).1 = true) :
    _connect_server_with_retry env now nm td s = ⟨false, td, s, [], 0⟩ ∧
    (if (_connect_server_with_retry env now nm td s).ok then
        (_connect_server_with_retry env now nm td s).state
      else
        _update_connection_health now
          (_connect_server_with_retry env now nm td s).state nm false) =
      _update_connection_health now s nm false ∧
    lookupKey (_update_connection_health now s nm false).health nm =
      some ⟨((lookupKey s.health nm).getD ProviderHealth.init).success_count,
            ((lookupKey s.health nm).getD ProviderHealth.init).failure_count + 1,
            ((lookupKey s.health nm).getD ProviderHealth.init).last_success,
            some now⟩ := by
  have hkeep := breaker_open_query_keeps_table now s.breaker nm hopen
  have h1 : _connect_server_with_retry env now nm td s = ⟨false, td, s, [], 0⟩ := by
    unfold _connect_server_with_retry
    simp only [hopen, if_true]
    rw [hkeep]
  refine ⟨h1, ?_, ?_⟩
  · rw [h1]
    simp
  · unfold _update_connection_health
    simp [lookupKey_setEntry_self]

theorem breaker_open_connect_skip_witness :
    (_is_circuit_breaker_open 150 sOpenB.breaker ("twitter")).1 = true ∧
    _connect_server_with_retry (envFail ("twitter")) 150 ("twitter") [] sOpenB =
      ⟨false, [], sOpenB, [], 0⟩ ∧
    lookupKey (_update_connection_health 150 sOpenB ("twitter") false).health ("twitter") =
      some ⟨0, 4, none, some 150⟩ :=
  ⟨by decide,
   (breaker_open_connect_skip (envFail ("twitter")) 150 ("twitter") [] sOpenB (by decide)).1,
   (breaker_open_connect_skip (envFail ("twitter")) 150 ("twitter") [] sOpenB (by decide)).2.2⟩

/-- C3 counterexample: the claim as stated is false at this input. With the
twitter breaker open at the moment of the refresh, the provider health
record is not left exactly the same: the refresh increments failure_count
from 3 to 4 and moves last_failure from 100 to 150. -/
theorem breaker_open_refresh_health_cex :
    (_is_circuit_breaker_open 150 sOpenB.breaker ("twitter")).1 = true ∧
    lookupKey sOpenB.health ("twitter") = some ⟨0, 3, none, some 100⟩ ∧
    lookupKey (_get_all_mcp_tools_impl envFail 150 sOpenB).state.health ("twitter") =
      some ⟨0, 4, none, some 150⟩ := by
  decide

/-- C4 amended: after three consecutive recorded failures the breaker entry
is open with the third failure time as its reference; an open entry stays
open at every query made at most CIRCUIT_BREAKER_TIMEOUT after its most
recently recorded failure, the query leaving the table unchanged; a query
strictly later than that closes the entry and zeroes its streak before
reporting; a further recorded failure while open advances the reference
failure time; a recorded success deletes the entry, after which queries
report closed. The cool-down window is measured from the most recently
recorded failure, not from the failure that opened the breaker. -/
theorem breaker_open_until_timeout (p : String)
    (br0 br : List (String × BreakerState)) (t1 t2 t3 t t4 lf n : Nat)
    (h0 : lookupKey br0 p = none)
    (hb : lookupKey br p = some ⟨n, some lf, true⟩) (hlf : 0 < lf) :
    lookupKey (_update_circuit_breaker t3 (_update_circuit_breaker t2
        (_update_circuit_breaker t1 br0 p) p) p) p = some ⟨3, some t3, true⟩ ∧
    (t - lf ≤ CIRCUIT_BREAKER_TIMEOUT → _is_circuit_breaker_open t br p = (true, br)) ∧
    (CIRCUIT_BREAKER_TIMEOUT < t - lf →
       _is_circuit_breaker_open t br p = (false, setEntry br p ⟨0, some lf, false⟩)) ∧
    lookupKey (_update_circuit_breaker t4 br p) p = some ⟨n + 1, some t4, true⟩ ∧
    _is_circuit_breaker_open t (delEntry br p) p = (false, delEntry br p) := by
  have hlf0 : lf ≠ 0 := Nat.pos_iff_ne_zero.mp hlf
  have step : ∀ (tm : Nat) (m : List (String × BreakerState)),
      lookupKey (_update_circuit_breaker tm m p) p =
        some (if CIRCUIT_BREAKER_THRESHOLD ≤
            ((lookupKey m p).getD BreakerState.init).failure_count + 1 then
          ⟨((lookupKey m p).getD BreakerState.init).failure_count + 1, some tm, true⟩
        else
          ⟨((lookupKey m p).getD BreakerState.init).failure_count + 1, some tm,
           ((lookupKey m p).getD BreakerState.init).is_open⟩) := by
    intro tm m
    unfold _update_circuit_breaker
    by_cases h : CIRCUIT_BREAKER_THRESHOLD ≤
        ((lookupKey m p).getD BreakerState.init).failure_count + 1
    · simp [h, lookupKey_setEntry_self]
    · simp [h, lookupKey_setEntry_self]
  have e1 : lookupKey (_update_circuit_breaker t1 br0 p) p = some ⟨1, some t1, false⟩ := by
    rw [step, h0]
    simp [BreakerState.init, CIRCUIT_BREAKER_THRESHOLD]
  have e2 : lookupKey (_update_circuit_breaker t2 (_update_circuit_breaker t1 br0 p) p) p =
      some ⟨2, some t2, false⟩ := by
    rw [step, e1]
    simp [CIRCUIT_BREAKER_THRESHOLD]
  refine ⟨?_, ?_, ?_, ?_, ?_⟩
  · rw [step, e2]
    simp [CIRCUIT_BREAKER_THRESHOLD]
  · intro ht
    unfold _is_circuit_breaker_open
    rw [hb]
    have hd : ¬ (CIRCUIT_BREAKER_TIMEOUT < t - lf) := by omega
    simp [lastFailureTruthy, hlf0, hd]
  · intro ht
    unfold _is_circuit_breaker_open
    rw [hb]
    simp [lastFailureTruthy, hlf0, ht]
  · rw [step, hb]
    by_cases hth : CIRCUIT_BREAKER_THRESHOLD ≤ n + 1
    · simp [hth]
    · simp [hth]
  · unfold _is_circuit_breaker_open
    rw [lookupKey_delEntry_self]

theorem breaker_open_until_timeout_witness :
    lookupKey ([] : List (String × BreakerState)) ("twitter") = none ∧
    lookupKey brOpen ("twitter") = some ⟨3, some 100, true⟩ ∧
    0 < 100 ∧
    _is_circuit_breaker_open 350 brOpen ("twitter") = (true, brOpen) ∧
    lookupKey (_update_circuit_breaker 200 brOpen ("twitter")) ("twitter") =
      some ⟨4, some 200, true⟩ :=
  ⟨rfl, by decide, by decide,
   (breaker_open_until_timeout ("twitter") [] brOpen 1 2 3 350 200 100 3 rfl
      (by decide) (by decide)).2.1 (by decide),
   (breaker_open_until_timeout ("twitter") [] brOpen 1 2 3 350 200 100 3 rfl
      (by decide) (by decide)).2.2.2.1⟩

/-- C4 counterexample: the claim as stated is false at this input. The
breaker was opened by the failure recorded at time 1; at a query at time
350, more than 300 time-units after the opening failure and with no success
recorded in between, the claim says the breaker transitions to closed with
its streak zeroed, but the code still reports it open and leaves the table
unchanged, because a fourth failure at time 200 moved the reference. -/
theorem breaker_timeout_window_cex :
    lookupKey (_update_circuit_breaker 1 (_update_circuit_breaker 1
        (_update_circuit_breaker 1 [] ("twitter")) ("twitter")) ("twitter")) ("twitter") =
      some ⟨3, some 1, true⟩ ∧
    CIRCUIT_BREAKER_TIMEOUT < 350 - 1 ∧
    (_is_circuit_breaker_open 350 brSeq ("twitter")).1 = true ∧
    (_is_circuit_breaker_open 350 brSeq ("twitter")).2 = brSeq := by
  decide

/-- C7: one connect makes at most MAX_RETRIES attempts; no delay precedes
the first attempt and the delay slept before the attempt with zero-based
index a is retryDelay a, whose values before the second and third attempts
are 1.0 and 2.0, following the capped exponential formula. -/
theorem connect_retry_backoff_bounds {τ : Type} (env : Nat → AttemptOutcome τ)
    (now : Nat) (nm : String) (td : List (String × τ)) (s : SysState τ) :
    (_connect_server_with_retry env now nm td s).attemptsMade ≤ MAX_RETRIES ∧
    (_connect_server_with_retry env now nm td s).delays =
      (List.drop 1
        (List.range (_connect_server_with_retry env now nm td s).attemptsMade)).map
        retryDelay ∧
    retryDelay 1 = 1 ∧ retryDelay 2 = 2 ∧
    (∀ a : Nat, retryDelay a = min (BASE_RETRY_DELAY * 2 ^ (a - 1)) MAX_RETRY_DELAY) := by
  have hd1 : retryDelay 1 = 1 := by
    norm_num [retryDelay, BASE_RETRY_DELAY, MAX_RETRY_DELAY]
  have hd2 : retryDelay 2 = 2 := by
    norm_num [retryDelay, BASE_RETRY_DELAY, MAX_RETRY_DELAY]
  have key : (_connect_server_with_retry env now nm td s).attemptsMade ≤ MAX_RETRIES ∧
      (_connect_server_with_retry env now nm td s).delays =
        (List.drop 1
          (List.range (_connect_server_with_retry env now nm td s).attemptsMade)).map
          retryDelay := by
    unfold _connect_server_with_retry
    by_cases hop : (_is_circuit_breaker_open now s.breaker nm).1
    · simp [hop, MAX_RETRIES]
    · have hr : List.range MAX_RETRIES = [0, 1, 2] := rfl
      simp only [hop, Bool.false_eq_true, if_false, hr]
      cases h0 : env 0 with
      | success tools => simp [connectAttempts, h0, MAX_RETRIES]
      | fault m0 =>
        cases h1 : env 1 with
        | success tools => simp [connectAttempts, h0, h1, MAX_RETRIES]
        | fault m1 =>
          cases h2 : env 2 with
          | success tools => simp [connectAttempts, h0, h1, h2, MAX_RETRIES, List.range']
          | fault m2 => simp [connectAttempts, h0, h1, h2, MAX_RETRIES, List.range']
  exact ⟨key.1, key.2, hd1, hd2, fun a => rfl⟩

theorem execute_tool_ok (c : CallBehavior) :
    ∃ v, _execute_tool_with_timeout c = .ok v := by
  unfold _execute_tool_with_timeout
  cases wait_for c TOOL_EXECUTION_TIMEOUT <;> exact ⟨_, rfl⟩

/-- C8: the invocation guard. A call that does not complete within
TOOL_EXECUTION_TIMEOUT yields the structured timeout value with its status
field timeout and an error string; a call raising within the bound yields
the structured error value with status error and an error string; in every
case the guard returns a value, never raising and never diverging. -/
theorem guard_timeout_error_contract (c : CallBehavior) (d : Nat) (msg : String) :
    (c.finishesWithin TOOL_EXECUTION_TIMEOUT = false →
       _execute_tool_with_timeout c = .ok timeoutResult ∧
       timeoutResult.status = some ("timeout") ∧ timeoutResult.error.isSome = true) ∧
    (d ≤ TOOL_EXECUTION_TIMEOUT →
       _execute_tool_with_timeout (.raisesAfter d msg) = .ok (errorResult msg) ∧
       (errorResult msg).status = some ("error") ∧ (errorResult msg).error.isSome = true) ∧
    (∃ v, _execute_tool_with_timeout c = .ok v) := by
  refine ⟨?_, ?_, execute_tool_ok c⟩
  · intro hf
    cases c with
    | returnsAfter dd v =>
      simp [CallBehavior.finishesWithin] at hf
      have hn : ¬ dd ≤ TOOL_EXECUTION_TIMEOUT := by omega
      simp [_execute_tool_with_timeout, wait_for, hn, timeoutResult]
    | raisesAfter dd m =>
      simp [CallBehavior.finishesWithin] at hf
      have hn : ¬ dd ≤ TOOL_EXECUTION_TIMEOUT := by omega
      simp [_execute_tool_with_timeout, wait_for, hn, timeoutResult]
    | hangs =>
      simp [_execute_tool_with_timeout, wait_for, timeoutResult]
  · intro hd
    simp [_execute_tool_with_timeout, wait_for, hd, errorResult]

theorem guard_timeout_error_contract_witness :
    CallBehavior.hangs.finishesWithin TOOL_EXECUTION_TIMEOUT = false ∧
    (5 : Nat) ≤ TOOL_EXECUTION_TIMEOUT ∧
    _execute_tool_with_timeout .hangs = .ok timeoutResult ∧
    _execute_tool_with_timeout (.raisesAfter 5 ("boom")) = .ok (errorResult ("boom")) ∧
    (∃ v, _execute_tool_with_timeout .hangs = .ok v) := by
  have h := guard_timeout_error_contract .hangs 5 ("boom")
  exact ⟨by decide, by decide, (h.1 (by decide)).1, (h.2.1 (by decide)).1, h.2.2⟩

/-- C2 amended: when the named tool is absent from the fetched registry,
advanced_search_twitter and get_tweet_thread_context return structured
service-unavailable failures (the latter without a debug snapshot), but
get_trends, get_tweets_by_IDs, get_tweet_replies and get_tweet_quotations
index the registry unchecked, and an uncaught KeyError escapes the facade. -/
theorem read_ops_unavailable_behavior (env : MCPEnv) (now : Nat) (s : SysState Tool) :
    (lookupKey (_get_all_mcp_tools env now false s).result ("advanced_search_twitter") = none →
       (advanced_search_twitter env now false s).result =
         .ok ⟨some ("failed"), some ("Twitter search service unavailable"), true, none⟩) ∧
    (lookupKey (_get_all_mcp_tools env now false s).result ("get_tweet_thread_context") = none →
       (get_tweet_thread_context env now false s).result =
         .ok ⟨some ("failed"), some ("Twitter thread context service unavailable"), false, none⟩) ∧
    (lookupKey (_get_all_mcp_tools env now false s).result ("get_trends") = none →
       (get_trends env now false s).result = .exc (.keyError ("get_trends"))) ∧
    (lookupKey (_get_all_mcp_tools env now false s).result ("get_tweets_by_IDs") = none →
       (get_tweets_by_IDs env now false s).result = .exc (.keyError ("get_tweets_by_IDs"))) ∧
    (lookupKey (_get_all_mcp_tools env now false s).result ("get_tweet_replies") = none →
       (get_tweet_replies env now false s).result = .exc (.keyError ("get_tweet_replies"))) ∧
    (lookupKey (_get_all_mcp_tools env now false s).result ("get_tweet_quotations") = none →
       (get_tweet_quotations env now false s).result = .exc (.keyError ("get_tweet_quotations"))) := by
  refine ⟨?_, ?_, ?_, ?_, ?_, ?_⟩ <;> intro h <;>
    simp [advanced_search_twitter, get_tweet_thread_context, get_trends,
      get_tweets_by_IDs, get_tweet_replies, get_tweet_quotations, h]

theorem read_ops_unavailable_behavior_witness :
    lookupKey (_get_all_mcp_tools envFail 10 false sEmptyReg).result ("get_trends") = none ∧
    (advanced_search_twitter envFail 10 false sEmptyReg).result =
      .ok ⟨some ("failed"), some ("Twitter search service unavailable"), true, none⟩ ∧
    (get_tweet_thread_context envFail 10 false sEmptyReg).result =
      .ok ⟨some ("failed"), some ("Twitter thread context service unavailable"), false, none⟩ ∧
    (get_trends envFail 10 false sEmptyReg).result = .exc (.keyError ("get_trends")) ∧
    (get_tweets_by_IDs envFail 10 false sEmptyReg).result = .exc (.keyError ("get_tweets_by_IDs")) ∧
    (get_tweet_replies envFail 10 false sEmptyReg).result = .exc (.keyError ("get_tweet_replies")) ∧
    (get_tweet_quotations envFail 10 false sEmptyReg).result = .exc (.keyError ("get_tweet_quotations")) := by
  have h := read_ops_unavailable_behavior envFail 10 sEmptyReg
  exact ⟨by decide, h.1 (by decide), h.2.1 (by decide), h.2.2.1 (by decide),
    h.2.2.2.1 (by decide), h.2.2.2.2.1 (by decide), h.2.2.2.2.2 (by decide)⟩

/-- C2 counterexample: the claim as stated is false at this input. With an
empty registry, get_trends does not return a structured service-unavailable
result: an uncaught KeyError fault escapes the facade boundary. -/
theorem read_ops_keyerror_cex :
    (get_trends envFail 10 false sEmptyReg).result = .exc (.keyError ("get_trends")) := by
  decide

/-- C1 amended: only post_tweet implements the one-retry-with-cache-
invalidation policy, and its retry triggers only when the tool is absent
from the fetched registry (a faulting invocation is converted to a
structured result by the guard and returned without retrying); delete_tweet,
like_tweet and retweet fetch exactly once and, when their tool is absent,
return a structured failure leaving the state of their single fetch as is,
with no cache invalidation and no retry. -/
theorem write_ops_retry_policy (env : MCPEnv) (now : Nat) (s s2 : SysState Tool) (t : Tool) :
    (lookupKey (_get_all_mcp_tools env now false s).result ("post_tweet") = none →
       (post_tweet env now false s).fetches = 2 ∧
       (lookupKey (_get_all_mcp_tools env now false
            { (_get_all_mcp_tools env now false s).state with cache := none }).result
            ("post_tweet") = none →
          (post_tweet env now false s).result = .ok postUnavailableResult ∧
          (post_tweet env now false s).state =
            (_get_all_mcp_tools env now false
              { (_get_all_mcp_tools env now false s).state with cache := none }).state)) ∧
    (lookupKey (_get_all_mcp_tools env now false s2).result ("post_tweet") = some t →
       (post_tweet env now false s2).fetches = 1 ∧
       (post_tweet env now false s2).result = _execute_tool_with_timeout t.behavior ∧
       (post_tweet env now false s2).state = (_get_all_mcp_tools env now false s2).state) ∧
    (delete_tweet env now false s).fetches = 1 ∧
    (lookupKey (_get_all_mcp_tools env now false s).result ("delete_tweet") = none →
       (delete_tweet env now false s).result =
         .ok ⟨some ("failed"), some ("Twitter delete service unavailable"), true, none⟩ ∧
       (delete_tweet env now false s).state = (_get_all_mcp_tools env now false s).state) ∧
    (like_tweet env now false s).fetches = 1 ∧
    (lookupKey (_get_all_mcp_tools env now false s).result ("like_tweet") = none →
       (like_tweet env now false s).result =
         .ok ⟨some ("failed"), some ("Twitter like service unavailable"), true, none⟩ ∧
       (like_tweet env now false s).state = (_get_all_mcp_tools env now false s).state) ∧
    (retweet env now false s).fetches = 1 ∧
    (lookupKey (_get_all_mcp_tools env now false s).result ("retweet") = none →
       (retweet env now false s).result =
         .ok ⟨some ("failed"), some ("Twitter retweet service unavailable"), true, none⟩ ∧
       (retweet env now false s).state = (_get_all_mcp_tools env now false s).state) := by
  refine ⟨?_, ?_, ?_, ?_, ?_, ?_, ?_, ?_⟩
  · intro h0
    have hfetch2 : (post_tweet env now false s) =
        postSecondAttempt env now false
          { (_get_all_mcp_tools env now false s).state with cache := none } := by
      simp [post_tweet, h0]
    rw [hfetch2]
    unfold postSecondAttempt
    constructor
    · cases hl : lookupKey (_get_all_mcp_tools env now false
          { (_get_all_mcp_tools env now false s).state with cache := none }).result
          ("post_tweet") with
      | none => simp [hl]
      | some t1 =>
        obtain ⟨v, hv⟩ := execute_tool_ok t1.behavior
        simp [hl, hv]
    · intro h1
      simp [h1]
  · intro h2
    obtain ⟨v, hv⟩ := execute_tool_ok t.behavior
    simp [post_tweet, h2, hv]
  · cases hl : lookupKey (_get_all_mcp_tools env now false s).result ("delete_tweet") with
    | none => simp [delete_tweet, hl]
    | some t1 => simp [delete_tweet, hl]
  · intro h
    simp [delete_tweet, h]
  · cases hl : lookupKey (_get_all_mcp_tools env now false s).result ("like_tweet") with
    | none => simp [like_tweet, hl]
    | some t1 => simp [like_tweet, hl]
  · intro h
    simp [like_tweet, h]
  · cases hl : lookupKey (_get_all_mcp_tools env now false s).result ("retweet") with
    | none => simp [retweet, hl]
    | some t1 => simp [retweet, hl]
  · intro h
    simp [retweet, h]

theorem write_ops_retry_policy_witness :
    lookupKey (_get_all_mcp_tools envFail 10 false sEmptyReg).result ("post_tweet") = none ∧
    lookupKey (_get_all_mcp_tools envFail 10 false sPostReg).result ("post_tweet") = some toolBoom ∧
    (post_tweet envFail 10 false sEmptyReg).fetches = 2 ∧
    (post_tweet envFail 10 false sEmptyReg).result = .ok postUnavailableResult ∧
    (post_tweet envFail 10 false sPostReg).fetches = 1 ∧
    (post_tweet envFail 10 false sPostReg).result = _execute_tool_with_timeout toolBoom.behavior ∧
    (delete_tweet envFail 10 false sEmptyReg).fetches = 1 ∧
    (delete_tweet envFail 10 false sEmptyReg).result =
      .ok ⟨some ("failed"), some ("Twitter delete service unavailable"), true, none⟩ ∧
    (like_tweet envFail 10 false sEmptyReg).fetches = 1 ∧
    (retweet envFail 10 false sEmptyReg).fetches = 1 := by
  have h := write_ops_retry_policy envFail 10 sEmptyReg sPostReg toolBoom
  exact ⟨by decide, by decide,
    (h.1 (by decide)).1, ((h.1 (by decide)).2 (by decide)).1,
    (h.2.1 (by decide)).1, (h.2.1 (by decide)).2.1,
    h.2.2.1, (h.2.2.2.1 (by decide)).1,
    h.2.2.2.2.1, h.2.2.2.2.2.2.1⟩

/-- C1 counterexample: the claim as stated is false at this input. With an
empty registry, delete_tweet fails but performs exactly one fetch, does not
invalidate the cache (still the empty mapping afterwards) and is not
retried before the structured failure is returned. -/
theorem post_write_retry_claim_cex :
    (delete_tweet envFail 10 false sEmptyReg).fetches = 1 ∧
    (delete_tweet envFail 10 false sEmptyReg).state.cache = some [] ∧
    (delete_tweet envFail 10 false sEmptyReg).result =
      .ok ⟨some ("failed"), some ("Twitter delete service unavailable"), true, none⟩ := by
  decide
